import Mathlib

/-!
Verification of the deck/transport synchronization and auto-crossfade core of a
two-deck Spotify DJ mixer.  The definitions below are a shallow embedding of the
zustand audio store (`useAudioStore`): numbers are modelled as exact rationals
(`ℚ`), the remote Spotify player is modelled as an oracle (`playOk` flags for
fallible calls) plus a trace of emitted `RemoteCall`s, and the asynchronous
structure of `activateDeck` is exposed as two atomic store updates
(`setDeckLoading` / `activateFinish`) separated by the awaited remote call.
-/

namespace SpotifyMixer

/-- Crossfade curve kinds: `'linear' | 'smooth' | 'power'`. -/
inductive Curve where
  | linear : Curve
  | smooth : Curve
  | power : Curve
deriving DecidableEq

/-- Embedding of `getCrossfadeValue(progress, curve)`: clamps progress to `[0,1]`
and applies the selected curve.  Modelled over `ℝ` because the power curve uses
the fractional exponent `Math.pow(progress, 1.5)`. -/
noncomputable def getCrossfadeValue (progress : ℝ) (curve : Curve) : ℝ :=
  let p := max 0 (min 1 progress)
  match curve with
  | Curve.linear => p
  | Curve.smooth => p * p * (3 - 2 * p)
  | Curve.power => Real.rpow p (3 / 2)

/-- Deck labels `'A' | 'B'`. -/
inductive DeckId where
  | A : DeckId
  | B : DeckId
deriving DecidableEq

/-- The other deck of the pair. -/
def DeckId.other : DeckId → DeckId
  | DeckId.A => DeckId.B
  | DeckId.B => DeckId.A

/-- Embedding of the `Track` interface.  The TS field `type` is the literal
type `'spotify'` (this is a Spotify-only mixer), so it carries no information
and is omitted; guards of the form `track?.type === 'spotify'` are modelled as
the track being present. -/
structure Track where
  id : String
  title : String
  artist : String
  duration : ℚ
  albumArt : Option String
  spotifyUri : String
  spotifyId : String
  previewUrl : Option String
  preparedStartTime : ℚ
  isPrepared : Bool
  preparationTimestamp : ℚ
deriving DecidableEq

/-- Embedding of the per-deck `DeckState`. -/
structure DeckState where
  track : Option Track
  isPlaying : Bool
  currentTime : ℚ
  volume : ℚ
  isActive : Bool
  isLoading : Bool
  lastActivated : ℚ
  lastPlayedPosition : ℚ
deriving DecidableEq

/-- Embedding of `AutoCrossfadeSettings`. -/
structure AutoCrossfadeSettings where
  enabled : Bool
  duration : ℚ
  triggerTime : ℚ
  curve : Curve
  autoActivateNext : Bool
  switchTiming : ℚ
deriving DecidableEq

/-- Crossfade direction `'A-to-B' | 'B-to-A'`. -/
inductive CrossfadeDirection where
  | AtoB : CrossfadeDirection
  | BtoA : CrossfadeDirection
deriving DecidableEq

/-- The store state (`AudioState`), restricted to its logical fields.  The Web
Audio handles (`audioContext`, gain nodes) and the polling interval handle are
environment resources outside the model; remote-player interaction is captured
instead by `RemoteCall` traces returned by the operations. -/
structure AudioState where
  deckA : DeckState
  deckB : DeckState
  crossfaderPosition : ℚ
  autoCrossfade : AutoCrossfadeSettings
  isCrossfading : Bool
  crossfadeStartTime : ℚ
  crossfadeDirection : Option CrossfadeDirection
deriving DecidableEq

/-- Calls issued to the remote Spotify player (the `RemotePlayerBinding`). -/
inductive RemoteCall where
  | play (uri : String) (positionMs : ℚ) : RemoteCall
  | pause : RemoteCall
  | resume : RemoteCall
  | seek (positionMs : ℚ) : RemoteCall
  | setVolume (level : ℚ) : RemoteCall
deriving DecidableEq

/-- Select a deck of the store by label. -/
def getDeck (s : AudioState) : DeckId → DeckState
  | DeckId.A => s.deckA
  | DeckId.B => s.deckB

/-- Update one deck of the store, leaving everything else unchanged (one
zustand `set` touching a single deck). -/
def updateDeck (d : DeckId) (f : DeckState → DeckState) (s : AudioState) : AudioState :=
  match d with
  | DeckId.A => { s with deckA := f s.deckA }
  | DeckId.B => { s with deckB := f s.deckB }

/-- Input shape of a raw Spotify API track object, as consumed by
`loadSpotifyTrack` (fields `id`, `name`, `artists`, `duration_ms`, `uri`,
`preview_url`, `album.images`). -/
structure SpotifyTrackInput where
  id : String
  name : String
  artists : List String
  duration_ms : ℚ
  uri : String
  preview_url : Option String
  album_images : List String
deriving DecidableEq

/-- The `Track` record built by `loadSpotifyTrack` from a raw Spotify track:
always `isPrepared = true` with `preparedStartTime = startTimeMs`. -/
def mkSpotifyTrack (input : SpotifyTrackInput) (startTimeMs now : ℚ) : Track :=
  { id := input.id
    title := input.name
    artist := String.intercalate ", " input.artists
    duration := input.duration_ms / 1000
    albumArt := input.album_images.head?
    spotifyUri := input.uri
    spotifyId := input.id
    previewUrl := input.preview_url
    preparedStartTime := startTimeMs
    isPrepared := true
    preparationTimestamp := now }

/-- Embedding of `loadSpotifyTrack(deck, spotifyTrack, startTimeMs)` (success
path; on failure the function rethrows before any store update). -/
def loadSpotifyTrack (d : DeckId) (input : SpotifyTrackInput) (startTimeMs now : ℚ)
    (s : AudioState) : AudioState :=
  updateDeck d
    (fun dk =>
      { dk with
        track := some (mkSpotifyTrack input startTimeMs now)
        isPlaying := false
        currentTime := if dk.isPlaying then dk.currentTime else startTimeMs / 1000
        isLoading := false }) s

/-- Embedding of `prepareDeck(deck, startTimeMs)`. -/
def prepareDeck (d : DeckId) (startTimeMs now : ℚ) (s : AudioState) : AudioState :=
  match (getDeck s d).track with
  | none => s
  | some tr =>
    let updatedTrack :=
      { tr with preparedStartTime := startTimeMs, isPrepared := true, preparationTimestamp := now }
    updateDeck d
      (fun dk =>
        { dk with
          track := some updatedTrack
          currentTime := if dk.isActive then dk.currentTime else startTimeMs / 1000 }) s

/-- The preparation gate of `activateDeck`: `!targetDeck.track || !targetDeck.track.isPrepared`. -/
def activationBlocked (d : DeckId) (s : AudioState) : Bool :=
  match (getDeck s d).track with
  | none => true
  | some tr => !tr.isPrepared

/-- Start-position resolution of `activateDeck`: with `preservePosition`, resume
from `lastPlayedPosition` (rounded to ms) if positive, else from `currentTime`
if positive, else the prepared cue point; without it, always the cue point. -/
def resolveStartPosition (dk : DeckState) (tr : Track) (preservePosition : Bool) : ℚ :=
  if preservePosition then
    if dk.lastPlayedPosition > 0 then ((round (dk.lastPlayedPosition * 1000) : ℤ) : ℚ)
    else if dk.currentTime > 0 then ((round (dk.currentTime * 1000) : ℤ) : ℚ)
    else tr.preparedStartTime
  else tr.preparedStartTime

/-- Set one deck's `isLoading` flag (the single-field `set` calls of
`activateDeck`). -/
def setDeckLoading (d : DeckId) (b : Bool) (s : AudioState) : AudioState :=
  updateDeck d (fun dk => { dk with isLoading := b }) s

/-- The single store update `activateDeck` performs after the awaited
`playTrack` call returns: on success one atomic `set` makes the target deck
active/playing and simultaneously deactivates the other deck, snapshotting its
current position into `lastPlayedPosition`; on failure only `isLoading` is
reset. -/
def activateFinish (d : DeckId) (startPositionMs : ℚ) (playOk : Bool) (now : ℚ)
    (s : AudioState) : AudioState :=
  if playOk then
    updateDeck d.other
      (fun dk =>
        { dk with
          isActive := false
          isPlaying := false
          lastPlayedPosition := if dk.isActive then dk.currentTime else dk.lastPlayedPosition })
      (updateDeck d
        (fun dk =>
          { dk with
            isActive := true
            isPlaying := true
            isLoading := false
            lastActivated := now
            currentTime := startPositionMs / 1000 }) s)
  else setDeckLoading d false s

/-- Embedding of `activateDeck(deck, preservePosition)`.  `playOk` is the
oracle for the awaited remote `playTrack` call; the returned triple is
(returned boolean, final store state, remote calls issued).  The beat-sync
notification and position-tracking restart on the success path touch no store
state and are omitted. -/
def activateDeck (d : DeckId) (preservePosition playOk : Bool) (now : ℚ)
    (s : AudioState) : Bool × AudioState × List RemoteCall :=
  match (getDeck s d).track with
  | none => (false, s, [])
  | some tr =>
    if tr.isPrepared then
      let s1 := setDeckLoading d true s
      let startPositionMs := resolveStartPosition (getDeck s d) tr preservePosition
      (playOk, activateFinish d startPositionMs playOk now s1,
        [RemoteCall.play tr.spotifyUri startPositionMs])
    else (false, s, [])

/-- Embedding of `setVolume(deck, volume)`: clamps, computes the
crossfader-weighted effective gain, pushes it to the remote player only when
the deck has a (Spotify) track and `isActive`, and stores the clamped per-deck
volume. -/
def setVolume (d : DeckId) (volume : ℚ) (s : AudioState) : AudioState × List RemoteCall :=
  let clampedVolume := max 0 (min 1 volume)
  let currentDeck := getDeck s d
  let crossfaderMix := if d = DeckId.A then 1 - s.crossfaderPosition else s.crossfaderPosition
  let finalVolume := clampedVolume * crossfaderMix
  let calls :=
    match currentDeck.track with
    | some _ => if currentDeck.isActive then [RemoteCall.setVolume finalVolume] else []
    | none => []
  (updateDeck d (fun dk => { dk with volume := clampedVolume }) s, calls)

/-- The per-deck remote volume push of `setCrossfader`: issued when the deck
has a (Spotify) track and `isPlaying`. -/
def crossfaderPush (dk : DeckState) (mix : ℚ) : List RemoteCall :=
  match dk.track with
  | some _ => if dk.isPlaying then [RemoteCall.setVolume (dk.volume * mix)] else []
  | none => []

/-- Embedding of `setCrossfader(position)`: clamps, pushes the crossfader-mixed
volumes of the playing decks to the remote player, and stores the clamped
position. -/
def setCrossfader (position : ℚ) (s : AudioState) : AudioState × List RemoteCall :=
  let clampedPosition := max 0 (min 1 position)
  let deckAMix := 1 - clampedPosition
  let deckBMix := clampedPosition
  ({ s with crossfaderPosition := clampedPosition },
    crossfaderPush s.deckA deckAMix ++ crossfaderPush s.deckB deckBMix)

/-- Embedding of `setDeckPosition(deck, positionMs)` (UI-only position set). -/
def setDeckPosition (d : DeckId) (positionMs : ℚ) (s : AudioState) : AudioState :=
  updateDeck d (fun dk => { dk with currentTime := positionMs / 1000 }) s

/-- Embedding of `seekSpotifyTrack(deck, positionMs)`: updates the UI position
immediately; for an active deck also issues the remote seek (`seekOk` oracle),
reverting the UI position if it fails. -/
def seekSpotifyTrack (d : DeckId) (positionMs : ℚ) (seekOk : Bool)
    (s : AudioState) : AudioState × List RemoteCall :=
  let currentDeck := getDeck s d
  match currentDeck.track with
  | none => (s, [])
  | some _ =>
    let s1 := updateDeck d (fun dk => { dk with currentTime := positionMs / 1000 }) s
    if currentDeck.isActive then
      if seekOk then (s1, [RemoteCall.seek positionMs])
      else (updateDeck d (fun dk => { dk with currentTime := currentDeck.currentTime }) s1,
        [RemoteCall.seek positionMs])
    else (s1, [])

/-- Embedding of `startAutoCrossfade(fromDeck, toDeck)` up to its single store
update: requires both tracks, the target prepared, and no transition in flight,
then sets the transition state in one `set`.  The spawned
`requestAnimationFrame` loop is modelled separately (`animStep`), with its
captured snapshot taken at this point. -/
def startAutoCrossfade (fromDeck toDeck : DeckId) (now : ℚ) (s : AudioState) : AudioState :=
  match (getDeck s fromDeck).track, (getDeck s toDeck).track with
  | some _, some targetTrack =>
    if !targetTrack.isPrepared then s
    else if s.isCrossfading then s
    else
      { s with
        isCrossfading := true
        crossfadeStartTime := now
        crossfadeDirection :=
          some (if fromDeck = DeckId.A then CrossfadeDirection.AtoB else CrossfadeDirection.BtoA) }
  | _, _ => s

/-- Embedding of `stopAutoCrossfade()`: clears the transition flags in one
`set` (the beat-sync stop notification touches no store state). -/
def stopAutoCrossfade (s : AudioState) : AudioState :=
  { s with isCrossfading := false, crossfadeStartTime := 0, crossfadeDirection := none }

/-- Body of the trigger check once the active/inactive pair is resolved:
requires both tracks with the inactive one prepared, and starts a transition
when `0 < remaining ≤ triggerTime`. -/
def checkTriggerGo (activeDeckId inactiveDeckId : DeckId) (now : ℚ) (s : AudioState) :
    AudioState :=
  match (getDeck s activeDeckId).track, (getDeck s inactiveDeckId).track with
  | some activeTrack, some inactiveTrack =>
    if !inactiveTrack.isPrepared then s
    else
      let timeRemaining := activeTrack.duration - (getDeck s activeDeckId).currentTime
      if timeRemaining ≤ s.autoCrossfade.triggerTime ∧ timeRemaining > 0 then
        startAutoCrossfade activeDeckId inactiveDeckId now s
      else s
  | _, _ => s

/-- Embedding of `checkAutoCrossfadeTrigger()`: skips unless enabled and not
already crossfading, resolves the active/inactive pair by the source's
conditional chain (deck A first), skips when no deck is active, then runs the
trigger body. -/
def checkAutoCrossfadeTrigger (now : ℚ) (s : AudioState) : AudioState :=
  if !s.autoCrossfade.enabled || s.isCrossfading then s
  else if s.deckA.isActive then checkTriggerGo DeckId.A DeckId.B now s
  else if s.deckB.isActive then checkTriggerGo DeckId.B DeckId.A now s
  else s

/-- Target-deck resolution of `updateSpotifyPosition`: an explicit deck is
used as given; otherwise auto-detect the deck that has a (Spotify) track, is
active and is playing (deck A checked first). -/
def resolvePositionDeck (dk? : Option DeckId) (s : AudioState) : Option DeckId :=
  match dk? with
  | some d => some d
  | none =>
    if s.deckA.track.isSome && s.deckA.isActive && s.deckA.isPlaying then some DeckId.A
    else if s.deckB.track.isSome && s.deckB.isActive && s.deckB.isPlaying then some DeckId.B
    else none

/-- Position write of `updateSpotifyPosition` once the deck is resolved:
ignored for an inactive deck; otherwise writes the authoritative
position/duration and then runs the auto-crossfade trigger check. -/
def applyPositionUpdate (d : DeckId) (positionMs durationMs now : ℚ) (s : AudioState) :
    AudioState :=
  if !(getDeck s d).isActive then s
  else
    checkAutoCrossfadeTrigger now
      (updateDeck d
        (fun dk =>
          { dk with
            currentTime := positionMs / 1000
            track := dk.track.map (fun tr => { tr with duration := durationMs / 1000 }) }) s)

/-- Embedding of `updateSpotifyPosition(positionMs, durationMs, deck?)`. -/
def updateSpotifyPosition (positionMs durationMs : ℚ) (dk? : Option DeckId) (now : ℚ)
    (s : AudioState) : AudioState :=
  match resolvePositionDeck dk? s with
  | none => s
  | some d => applyPositionUpdate d positionMs durationMs now s

/-- A `Partial<AutoCrossfadeSettings>` patch. -/
structure SettingsPatch where
  enabled : Option Bool
  duration : Option ℚ
  triggerTime : Option ℚ
  curve : Option Curve
  autoActivateNext : Option Bool
  switchTiming : Option ℚ
deriving DecidableEq

/-- Merge a settings patch over the current settings (object spread). -/
def applyPatch (p : SettingsPatch) (a : AutoCrossfadeSettings) : AutoCrossfadeSettings :=
  { enabled := p.enabled.getD a.enabled
    duration := p.duration.getD a.duration
    triggerTime := p.triggerTime.getD a.triggerTime
    curve := p.curve.getD a.curve
    autoActivateNext := p.autoActivateNext.getD a.autoActivateNext
    switchTiming := p.switchTiming.getD a.switchTiming }

/-- Embedding of `setAutoCrossfadeSettings(settings)`. -/
def setAutoCrossfadeSettings (p : SettingsPatch) (s : AudioState) : AudioState :=
  { s with autoCrossfade := applyPatch p s.autoCrossfade }

/-- The empty deck the store starts with (and that `cleanup` resets to). -/
def initialDeck : DeckState :=
  { track := none
    isPlaying := false
    currentTime := 0
    volume := 4 / 5
    isActive := false
    isLoading := false
    lastActivated := 0
    lastPlayedPosition := 0 }

/-- Embedding of `cleanup()`: resets both decks to empty (the audio-graph and
interval handles it also clears are outside the model; it does not touch the
crossfader position or the transition flags). -/
def cleanup (s : AudioState) : AudioState :=
  { s with deckA := initialDeck, deckB := initialDeck }

/-- The default auto-crossfade settings of the store. -/
def defaultAutoCrossfade : AutoCrossfadeSettings :=
  { enabled := true
    duration := 8
    triggerTime := 15
    curve := Curve.smooth
    autoActivateNext := true
    switchTiming := 3 / 4 }

/-- The store's initial state. -/
def initialState : AudioState :=
  { deckA := initialDeck
    deckB := initialDeck
    crossfaderPosition := 1 / 2
    autoCrossfade := defaultAutoCrossfade
    isCrossfading := false
    crossfadeStartTime := 0
    crossfadeDirection := none }

/-- The values `startAutoCrossfade` captures in the `animateCrossfade` closure:
deck pair, the settings snapshot (`const { autoCrossfade } = state`), the
snapshot of `targetDeck.isActive`, and the wall-clock `startTime`.  A running
transition never re-reads these from the store. -/
structure AnimCfg where
  fromDeck : DeckId
  toDeck : DeckId
  autoCfg : AutoCrossfadeSettings
  targetWasActive : Bool
  startTime : ℚ
deriving DecidableEq

/-- Events interleaved with a running transition: an animation frame (with its
wall-clock time, the curve value `getCrossfadeValue(progress, curve)` for that
frame supplied by the environment since the power curve is irrational over `ℚ`
— no property proved below depends on it — and the oracle for the `activateDeck`
call the frame may issue), or an external `stopAutoCrossfade()` call. -/
inductive AnimEvent where
  | frame (now fade : ℚ) (playOk : Bool) : AnimEvent
  | stop : AnimEvent
deriving DecidableEq

/-- State of one running `animateCrossfade` loop: the store, the closure-local
`hasActivated` flag, whether the loop has finished (stopped re-queuing), and
the log of `activateDeck` invocations it issued, as (elapsed ms,
preservePosition) pairs. -/
structure AnimState where
  store : AudioState
  hasActivated : Bool
  finished : Bool
  activations : List (ℚ × Bool)
deriving DecidableEq

/-- The handoff guard of one animation frame, the source's
`!hasActivated && elapsed >= switchTime && autoCrossfade.autoActivateNext &&
!targetDeck.isActive` (with `switchTime = duration * switchTiming * 1000` from
the transition-start snapshot). -/
def handoffCondition (cfg : AnimCfg) (hasActivated : Bool) (elapsed : ℚ) : Bool :=
  !hasActivated &&
    decide (elapsed ≥ cfg.autoCfg.duration * cfg.autoCfg.switchTiming * 1000) &&
    cfg.autoCfg.autoActivateNext && !cfg.targetWasActive

/-- One event against a running transition, mirroring the body of
`animateCrossfade`: compute `elapsed` and `progress`, apply the crossfader
position for this frame, issue the one-shot mid-transition handoff
(`activateDeck(toDeck, false)`) once the `handoffCondition` guard passes, and
on `progress = 1` call `stopAutoCrossfade` and stop re-queuing.  An external
`stop` event only runs `stopAutoCrossfade` on the store: nothing in the loop
body consults `isCrossfading`, so it keeps running. -/
def animStep (cfg : AnimCfg) (st : AnimState) (ev : AnimEvent) : AnimState :=
  match ev with
  | AnimEvent.stop => { st with store := stopAutoCrossfade st.store }
  | AnimEvent.frame now fade playOk =>
    if st.finished then st
    else
      let elapsed := now - cfg.startTime
      let totalDuration := cfg.autoCfg.duration * 1000
      let progress := min (elapsed / totalDuration) 1
      let newPosition := if cfg.fromDeck = DeckId.A then fade else 1 - fade
      let store1 := (setCrossfader newPosition st.store).1
      let doActivate := handoffCondition cfg st.hasActivated elapsed
      let store2 :=
        if doActivate then (activateDeck cfg.toDeck false playOk now store1).2.1 else store1
      { store := if progress < 1 then store2 else stopAutoCrossfade store2
        hasActivated := st.hasActivated || doActivate
        finished := if progress < 1 then st.finished else true
        activations := st.activations ++ (if doActivate then [(elapsed, false)] else []) }

/-- Run one transition's animation over a sequence of interleaved events. -/
def animRun (cfg : AnimCfg) (events : List AnimEvent) (st : AnimState) : AnimState :=
  events.foldl (animStep cfg) st

/-- The animation state at transition start, over store state `s`. -/
def animInit (s : AudioState) : AnimState :=
  { store := s, hasActivated := false, finished := false, activations := [] }

/-- One atomic store update of the mixer, at the granularity of zustand `set`
calls.  `activateDeck` contributes its two separate updates (`setDeckLoading`
before the awaited remote call, `activateFinish` after), so every intermediate
state of an in-flight activation is a `Step` target; `playPause` contributes
the activation steps plus the play-flag set of its pause/resume branches —
that set carries no guard here because the source checks `isActive` only
before the awaited `pausePlayback`/`resumePlayback` call and writes
`isPlaying` after the await without re-checking, so the write can land on a
deck that was deactivated during the await; the transition animation only
ever runs `setCrossfader`, `activateDeck` and `stopAutoCrossfade`, all
present below. -/
inductive Step : AudioState → AudioState → Prop where
  | load : ∀ s d input startTimeMs now, Step s (loadSpotifyTrack d input startTimeMs now s)
  | prepare : ∀ s d startTimeMs now, Step s (prepareDeck d startTimeMs now s)
  | deckLoading : ∀ s d b, Step s (setDeckLoading d b s)
  | finishActivate : ∀ s d startPositionMs playOk now,
      Step s (activateFinish d startPositionMs playOk now s)
  | togglePlay : ∀ s d b,
      Step s (updateDeck d (fun dk => { dk with isPlaying := b }) s)
  | vol : ∀ s d v, Step s (setVolume d v s).1
  | fader : ∀ s p, Step s (setCrossfader p s).1
  | posUpdate : ∀ s positionMs durationMs dk? now,
      Step s (updateSpotifyPosition positionMs durationMs dk? now s)
  | setPos : ∀ s d positionMs, Step s (setDeckPosition d positionMs s)
  | seek : ∀ s d positionMs seekOk, Step s (seekSpotifyTrack d positionMs seekOk s).1
  | settings : ∀ s p, Step s (setAutoCrossfadeSettings p s)
  | startXfade : ∀ s f t now, Step s (startAutoCrossfade f t now s)
  | stopXfade : ∀ s, Step s (stopAutoCrossfade s)
  | trigger : ∀ s now, Step s (checkAutoCrossfadeTrigger now s)
  | clean : ∀ s, Step s (cleanup s)

/-- States of the mixer store reachable from startup through atomic updates. -/
inductive Reachable : AudioState → Prop where
  | init : Reachable initialState
  | step : ∀ {s s'}, Reachable s → Step s s' → Reachable s'

/-- Per-deck invariant: a loaded track is always prepared (every `Track` the
store ever constructs has `isPrepared = true`).  Note that `isPlaying` does
not imply `isActive`: a `playPause` resume whose awaited remote call races a
concurrent activation of the other deck leaves a deactivated deck marked
playing. -/
def DeckInv (dk : DeckState) : Prop :=
  ∀ t, dk.track = some t → t.isPrepared = true

/-- Store invariant: at most one deck is active, plus the per-deck invariants. -/
def Inv (s : AudioState) : Prop :=
  ¬(s.deckA.isActive = true ∧ s.deckB.isActive = true) ∧ DeckInv s.deckA ∧ DeckInv s.deckB

/-- A call into the auto-crossfade entry points: a trigger check or an explicit
`startAutoCrossfade` request. -/
inductive XfCall where
  | check (now : ℚ) : XfCall
  | start (fromDeck toDeck : DeckId) (now : ℚ) : XfCall
deriving DecidableEq

/-- Apply one auto-crossfade entry-point call to the store. -/
def applyXfCall (s : AudioState) (c : XfCall) : AudioState :=
  match c with
  | XfCall.check now => checkAutoCrossfadeTrigger now s
  | XfCall.start fromDeck toDeck now => startAutoCrossfade fromDeck toDeck now s

/-- Spec-side trigger condition for one orientation of the deck pair: the
first deck is the single active deck and holds a track, the second (candidate)
deck holds a prepared track, and `0 < remaining ≤ lead` for the active track. -/
def triggerSide (active candidate : DeckState) (lead : ℚ) : Bool :=
  active.isActive && !candidate.isActive &&
    (match active.track, candidate.track with
     | some activeTrack, some candidateTrack =>
       candidateTrack.isPrepared &&
         decide (0 < activeTrack.duration - active.currentTime) &&
         decide (activeTrack.duration - active.currentTime ≤ lead)
     | _, _ => false)

/-- Spec-side condition under which the trigger check is claimed to start a
transition: auto-crossfade enabled, no transition in flight, exactly one deck
active with a track, the candidate prepared, and `0 < remaining ≤ triggerTime`. -/
def triggerConditions (s : AudioState) : Bool :=
  s.autoCrossfade.enabled && !s.isCrossfading &&
    (triggerSide s.deckA s.deckB s.autoCrossfade.triggerTime ||
      triggerSide s.deckB s.deckA s.autoCrossfade.triggerTime)

/-- A prepared 180-second track cued at 0 ms, for concrete scenarios. -/
def exTrackA : Track :=
  { id := "track-a"
    title := "Song A"
    artist := "Artist A"
    duration := 180
    albumArt := none
    spotifyUri := "spotify-track-a"
    spotifyId := "track-a"
    previewUrl := none
    preparedStartTime := 0
    isPrepared := true
    preparationTimestamp := 0 }

/-- A prepared 200-second track cued at 30000 ms, for concrete scenarios. -/
def exTrackB : Track :=
  { id := "track-b"
    title := "Song B"
    artist := "Artist B"
    duration := 200
    albumArt := none
    spotifyUri := "spotify-track-b"
    spotifyId := "track-b"
    previewUrl := none
    preparedStartTime := 30000
    isPrepared := true
    preparationTimestamp := 0 }

/-- Scenario state: deck A active and playing its 180-second track at 166 s,
deck B inactive with a prepared track, default settings (`triggerTime = 15`),
no transition in flight. -/
def exState166 : AudioState :=
  { deckA :=
      { track := some exTrackA
        isPlaying := true
        currentTime := 166
        volume := 4 / 5
        isActive := true
        isLoading := false
        lastActivated := 0
        lastPlayedPosition := 0 }
    deckB :=
      { track := some exTrackB
        isPlaying := false
        currentTime := 30
        volume := 4 / 5
        isActive := false
        isLoading := false
        lastActivated := 0
        lastPlayedPosition := 0 }
    crossfaderPosition := 0
    autoCrossfade := defaultAutoCrossfade
    isCrossfading := false
    crossfadeStartTime := 0
    crossfadeDirection := none }

/-- Same scenario with the active deck at 160 s (remaining 20 s > 15 s). -/
def exState160 : AudioState :=
  { exState166 with deckA := { exState166.deckA with currentTime := 160 } }

/-- Scenario state with a transition already in flight. -/
def exStateCrossfading : AudioState :=
  { exState166 with
    isCrossfading := true
    crossfadeStartTime := 5
    crossfadeDirection := some CrossfadeDirection.AtoB }

/-- The animation snapshot of a transition started from `exStateCrossfading`:
A→B, default settings (8 s duration, `switchTiming = 0.75`, so the handoff
point is 6000 ms), target deck B inactive at start, started at wall time 0. -/
def exAnimCfg : AnimCfg :=
  { fromDeck := DeckId.A
    toDeck := DeckId.B
    autoCfg := defaultAutoCrossfade
    targetWasActive := false
    startTime := 0 }

/-- Animation events: one early frame, then an external `stopAutoCrossfade`. -/
def exStopEvents : List AnimEvent :=
  [AnimEvent.frame 1000 (1 / 10) true, AnimEvent.stop]

/-- Animation events: one early frame, an external `stopAutoCrossfade`, then a
frame past the 6000 ms handoff point while the same loop is still running. -/
def exStaleEvents : List AnimEvent :=
  [AnimEvent.frame 1000 (1 / 10) true, AnimEvent.stop, AnimEvent.frame 6100 (9 / 10) true]

/-- Scenario state: deck A active and playing at 42.3 s, deck B inactive with
a prepared track. -/
def exResumeState : AudioState :=
  { exState166 with
    deckA := { exState166.deckA with currentTime := 423 / 10 } }

/-- The state after deck B is activated from `exResumeState` (deactivating
deck A at 42.3 s). -/
def exResumeState2 : AudioState :=
  (activateDeck DeckId.B false true 0 exResumeState).2.1

/-- A raw Spotify track input for concrete load scenarios. -/
def exInputA : SpotifyTrackInput :=
  { id := "track-a"
    name := "Song A"
    artists := ["Artist A"]
    duration_ms := 180000
    uri := "spotify-track-a"
    preview_url := none
    album_images := [] }

/-- A reachable state in which deck A is active but paused: built from startup
by loading a track into deck A, a successful activation, and the pause branch
of `playPause`. -/
def exPausedActive : AudioState :=
  updateDeck DeckId.A (fun dk => { dk with isPlaying := false })
    (activateFinish DeckId.A 0 true 0 (loadSpotifyTrack DeckId.A exInputA 0 0 initialState))

/-- A program-reachable stale-resume state: starting from `exPausedActive`
(deck A active but paused), the user presses play, so `playPause` checks
`isActive` and suspends at the awaited `resumePlayback` call; during that
await a track is loaded into deck B and deck B's activation completes
(deactivating deck A in its atomic success update); the resume branch's
pending `isPlaying := true` set then lands on the now-inactive deck A,
leaving deck A `isPlaying = true ∧ isActive = false`. -/
def exStaleResume : AudioState :=
  updateDeck DeckId.A (fun dk => { dk with isPlaying := true })
    (activateFinish DeckId.B 0 true 0 (loadSpotifyTrack DeckId.B exInputA 0 0 exPausedActive))

/-- Scenario state: deck A inactive, holding a prepared track and a positive
`lastPlayedPosition` of 57 s saved by an earlier deactivation. -/
def exResumeLit : AudioState :=
  { deckA :=
      { track := some exTrackA
        isPlaying := false
        currentTime := 0
        volume := 4 / 5
        isActive := false
        isLoading := false
        lastActivated := 0
        lastPlayedPosition := 57 }
    deckB := initialDeck
    crossfaderPosition := 1 / 2
    autoCrossfade := defaultAutoCrossfade
    isCrossfading := false
    crossfadeStartTime := 0
    crossfadeDirection := none }

@[simp] theorem getDeck_A (s : AudioState) : getDeck s DeckId.A = s.deckA := rfl

@[simp] theorem getDeck_B (s : AudioState) : getDeck s DeckId.B = s.deckB := rfl

@[simp] theorem updateDeck_A (f : DeckState → DeckState) (s : AudioState) :
    updateDeck DeckId.A f s = { s with deckA := f s.deckA } := rfl

@[simp] theorem updateDeck_B (f : DeckState → DeckState) (s : AudioState) :
    updateDeck DeckId.B f s = { s with deckB := f s.deckB } := rfl

theorem inv_of_decksEq {s s' : AudioState} (h : Inv s)
    (hA : s'.deckA = s.deckA) (hB : s'.deckB = s.deckB) : Inv s' := by
  rw [Inv, hA, hB]; exact h

theorem inv_updateDeck {s : AudioState} {d : DeckId} {f : DeckState → DeckState} (h : Inv s)
    (hAct : ∀ dk, (f dk).isActive = dk.isActive)
    (hDeck : ∀ dk, DeckInv dk → DeckInv (f dk)) : Inv (updateDeck d f s) := by
  obtain ⟨h1, h2, h3⟩ := h
  cases d <;> simp only [updateDeck_A, updateDeck_B] <;>
    exact ⟨by simp only [hAct]; exact h1, by first | exact ⟨hDeck _ h2, h3⟩ | exact ⟨h2, hDeck _ h3⟩⟩

theorem startAutoCrossfade_decks (f t : DeckId) (now : ℚ) (s : AudioState) :
    (startAutoCrossfade f t now s).deckA = s.deckA ∧
      (startAutoCrossfade f t now s).deckB = s.deckB := by
  unfold startAutoCrossfade
  split
  · split
    · exact ⟨rfl, rfl⟩
    · split <;> exact ⟨rfl, rfl⟩
  · exact ⟨rfl, rfl⟩

theorem checkTriggerGo_decks (a b : DeckId) (now : ℚ) (s : AudioState) :
    (checkTriggerGo a b now s).deckA = s.deckA ∧ (checkTriggerGo a b now s).deckB = s.deckB := by
  unfold checkTriggerGo
  split
  · split
    · exact ⟨rfl, rfl⟩
    · dsimp only
      split
      · exact startAutoCrossfade_decks _ _ _ _
      · exact ⟨rfl, rfl⟩
  · exact ⟨rfl, rfl⟩

theorem checkAutoCrossfadeTrigger_decks (now : ℚ) (s : AudioState) :
    (checkAutoCrossfadeTrigger now s).deckA = s.deckA ∧
      (checkAutoCrossfadeTrigger now s).deckB = s.deckB := by
  unfold checkAutoCrossfadeTrigger
  split
  · exact ⟨rfl, rfl⟩
  · split
    · exact checkTriggerGo_decks _ _ _ _
    · split
      · exact checkTriggerGo_decks _ _ _ _
      · exact ⟨rfl, rfl⟩

theorem inv_initialState : Inv initialState := by
  refine ⟨by simp [initialState, initialDeck], ?_, ?_⟩ <;>
    exact fun t ht => by simp [initialState, initialDeck] at ht

theorem inv_step {s s' : AudioState} (h : Inv s) (hs : Step s s') : Inv s' := by
  cases hs with
  | load d input startTimeMs now =>
    refine inv_updateDeck h (fun dk => rfl) (fun dk hdk => ?_)
    intro t ht
    simp only [Option.some.injEq] at ht
    rw [← ht]
    rfl
  | prepare d startTimeMs now =>
    unfold prepareDeck
    split
    · exact h
    · refine inv_updateDeck h (fun dk => rfl) (fun dk hdk => ?_)
      intro t ht
      simp only [Option.some.injEq] at ht
      rw [← ht]
  | deckLoading d b =>
    exact inv_updateDeck h (fun dk => rfl) (fun dk hdk => hdk)
  | finishActivate d startPositionMs playOk now =>
    unfold activateFinish
    split
    · obtain ⟨h1, h2, h3⟩ := h
      cases d
      · exact ⟨fun hc => Bool.noConfusion hc.2,
          fun t ht => h2 t ht, fun t ht => h3 t ht⟩
      · exact ⟨fun hc => Bool.noConfusion hc.1,
          fun t ht => h2 t ht, fun t ht => h3 t ht⟩
    · exact inv_updateDeck h (fun dk => rfl) (fun dk hdk => hdk)
  | togglePlay d b =>
    exact inv_updateDeck h (fun dk => rfl) (fun dk hdk => hdk)
  | vol d v =>
    exact inv_updateDeck h (fun dk => rfl) (fun dk hdk => hdk)
  | fader p =>
    exact inv_of_decksEq h rfl rfl
  | posUpdate positionMs durationMs dk? now =>
    unfold updateSpotifyPosition
    split
    · exact h
    · unfold applyPositionUpdate
      split
      · exact h
      · refine inv_of_decksEq ?_
          (checkAutoCrossfadeTrigger_decks _ _).1 (checkAutoCrossfadeTrigger_decks _ _).2
        refine inv_updateDeck h (fun dk => rfl) (fun dk hdk => ?_)
        intro t ht
        cases htr : dk.track with
        | none => rw [htr] at ht; simp at ht
        | some t0 =>
          rw [htr] at ht
          injection ht with ht
          rw [← ht]
          exact hdk t0 htr
  | setPos d positionMs =>
    exact inv_updateDeck h (fun dk => rfl) (fun dk hdk => hdk)
  | seek d positionMs seekOk =>
    unfold seekSpotifyTrack
    dsimp only
    split
    · exact h
    · split
      · split
        · exact inv_updateDeck h (fun dk => rfl) (fun dk hdk => hdk)
        · exact inv_updateDeck (inv_updateDeck h (fun dk => rfl) (fun dk hdk => hdk))
            (fun dk => rfl) (fun dk hdk => hdk)
      · exact inv_updateDeck h (fun dk => rfl) (fun dk hdk => hdk)
  | settings p =>
    exact inv_of_decksEq h rfl rfl
  | startXfade f t now =>
    exact inv_of_decksEq h (startAutoCrossfade_decks _ _ _ _).1 (startAutoCrossfade_decks _ _ _ _).2
  | stopXfade =>
    exact inv_of_decksEq h rfl rfl
  | trigger now =>
    exact inv_of_decksEq h (checkAutoCrossfadeTrigger_decks _ _).1
      (checkAutoCrossfadeTrigger_decks _ _).2
  | clean =>
    exact ⟨by simp [cleanup, initialDeck],
      fun t ht => by simp [cleanup, initialDeck] at ht,
      fun t ht => by simp [cleanup, initialDeck] at ht⟩

theorem reachable_inv {s : AudioState} (h : Reachable s) : Inv s := by
  induction h with
  | init => exact inv_initialState
  | step _ hs ih => exact inv_step ih hs

theorem startAutoCrossfade_inflight {s : AudioState} (h : s.isCrossfading = true)
    (f t : DeckId) (now : ℚ) : startAutoCrossfade f t now s = s := by
  unfold startAutoCrossfade
  split
  · rw [h]
    simp
  · rfl

theorem checkAutoCrossfadeTrigger_inflight {s : AudioState} (h : s.isCrossfading = true)
    (now : ℚ) : checkAutoCrossfadeTrigger now s = s := by
  unfold checkAutoCrossfadeTrigger
  have hcond : (!s.autoCrossfade.enabled || s.isCrossfading) = true := by
    rw [h, Bool.or_true]
  rw [if_pos hcond]

theorem step_activation {s s' : AudioState} (hs : Step s s') :
    (s'.deckA.isActive = s.deckA.isActive ∧ s'.deckB.isActive = s.deckB.isActive) ∨
    (∃ d startPositionMs now, s' = activateFinish d startPositionMs true now s) ∨
    (s'.deckA.isActive = false ∧ s'.deckB.isActive = false) := by
  cases hs with
  | load d input startTimeMs now => cases d <;> exact Or.inl ⟨rfl, rfl⟩
  | prepare d startTimeMs now =>
    unfold prepareDeck
    split
    · exact Or.inl ⟨rfl, rfl⟩
    · cases d <;> exact Or.inl ⟨rfl, rfl⟩
  | deckLoading d b => cases d <;> exact Or.inl ⟨rfl, rfl⟩
  | finishActivate d startPositionMs playOk now =>
    cases playOk with
    | true => exact Or.inr (Or.inl ⟨d, startPositionMs, now, rfl⟩)
    | false => cases d <;> exact Or.inl ⟨rfl, rfl⟩
  | togglePlay d b => cases d <;> exact Or.inl ⟨rfl, rfl⟩
  | vol d v => cases d <;> exact Or.inl ⟨rfl, rfl⟩
  | fader p => exact Or.inl ⟨rfl, rfl⟩
  | posUpdate positionMs durationMs dk? now =>
    unfold updateSpotifyPosition
    split
    · exact Or.inl ⟨rfl, rfl⟩
    · next d heq =>
      unfold applyPositionUpdate
      split
      · exact Or.inl ⟨rfl, rfl⟩
      · refine Or.inl ⟨?_, ?_⟩
        · rw [(checkAutoCrossfadeTrigger_decks _ _).1]
          cases d <;> rfl
        · rw [(checkAutoCrossfadeTrigger_decks _ _).2]
          cases d <;> rfl
  | setPos d positionMs => cases d <;> exact Or.inl ⟨rfl, rfl⟩
  | seek d positionMs seekOk =>
    unfold seekSpotifyTrack
    dsimp only
    split
    · exact Or.inl ⟨rfl, rfl⟩
    · split
      · split
        · cases d <;> exact Or.inl ⟨rfl, rfl⟩
        · cases d <;> exact Or.inl ⟨rfl, rfl⟩
      · cases d <;> exact Or.inl ⟨rfl, rfl⟩
  | settings p => exact Or.inl ⟨rfl, rfl⟩
  | startXfade f t now =>
    refine Or.inl ⟨?_, ?_⟩
    · rw [(startAutoCrossfade_decks _ _ _ _).1]
    · rw [(startAutoCrossfade_decks _ _ _ _).2]
  | stopXfade => exact Or.inl ⟨rfl, rfl⟩
  | trigger now =>
    refine Or.inl ⟨?_, ?_⟩
    · rw [(checkAutoCrossfadeTrigger_decks _ _).1]
    · rw [(checkAutoCrossfadeTrigger_decks _ _).2]
  | clean => exact Or.inr (Or.inr ⟨rfl, rfl⟩)

/-- C1: in every reachable state of the mixer store (including the
intermediate states inside an in-flight `activateDeck`, which contribute their
own `Step`s) at most one of `deckA.isActive` and `deckB.isActive` is true; and
the only atomic update that ever turns a deck's `isActive` flag on is
`activateDeck`'s single success update (`activateFinish` with a successful
remote play), which deactivates the other deck in that same update — so there
is no intermediate state in which both decks are simultaneously active. -/
theorem c1_single_active_atomic :
    (∀ s : AudioState, Reachable s →
      ¬(s.deckA.isActive = true ∧ s.deckB.isActive = true)) ∧
    (∀ s s' : AudioState, Step s s' →
      ((s.deckA.isActive = false ∧ s'.deckA.isActive = true) ∨
        (s.deckB.isActive = false ∧ s'.deckB.isActive = true)) →
      ∃ d startPositionMs now, s' = activateFinish d startPositionMs true now s ∧
        ¬(s'.deckA.isActive = true ∧ s'.deckB.isActive = true)) := by
  constructor
  · exact fun s hr => (reachable_inv hr).1
  · intro s s' hs hbecame
    rcases step_activation hs with hpres | ⟨d, pos, now, heq⟩ | ⟨hA, hB⟩
    · rcases hbecame with ⟨h1, h2⟩ | ⟨h1, h2⟩
      · rw [hpres.1, h1] at h2
        exact Bool.noConfusion h2
      · rw [hpres.2, h1] at h2
        exact Bool.noConfusion h2
    · refine ⟨d, pos, now, heq, ?_⟩
      subst heq
      cases d
      · exact fun hc => Bool.noConfusion hc.2
      · exact fun hc => Bool.noConfusion hc.1
    · rcases hbecame with ⟨h1, h2⟩ | ⟨h1, h2⟩
      · rw [hA] at h2
        exact Bool.noConfusion h2
      · rw [hB] at h2
        exact Bool.noConfusion h2

/-- Witness for C1: the invariant at the initial state, and the atomicity
conclusion at a concrete successful activation step out of the initial state. -/
theorem c1_witness :
    ¬(initialState.deckA.isActive = true ∧ initialState.deckB.isActive = true) ∧
    (∃ d startPositionMs now,
      activateFinish DeckId.A 0 true 0 initialState =
        activateFinish d startPositionMs true now initialState ∧
      ¬((activateFinish DeckId.A 0 true 0 initialState).deckA.isActive = true ∧
        (activateFinish DeckId.A 0 true 0 initialState).deckB.isActive = true)) :=
  ⟨c1_single_active_atomic.1 initialState Reachable.init,
    c1_single_active_atomic.2 initialState _ (Step.finishActivate initialState DeckId.A 0 true 0)
      (Or.inl ⟨by decide, by decide⟩)⟩

/-- C3: once a transition is in flight (`isCrossfading = true`), any sequence
of trigger checks and `startAutoCrossfade` calls leaves the store — in
particular `isCrossfading`, `crossfadeStartTime` and `crossfadeDirection` —
unchanged: no second transition starts. -/
theorem c3_no_double_trigger (s : AudioState) (h : s.isCrossfading = true)
    (calls : List XfCall) :
    List.foldl applyXfCall s calls = s ∧
    (List.foldl applyXfCall s calls).isCrossfading = s.isCrossfading ∧
    (List.foldl applyXfCall s calls).crossfadeStartTime = s.crossfadeStartTime ∧
    (List.foldl applyXfCall s calls).crossfadeDirection = s.crossfadeDirection := by
  have key : List.foldl applyXfCall s calls = s := by
    induction calls with
    | nil => rfl
    | cons c cs ih =>
      rw [List.foldl_cons]
      have hc : applyXfCall s c = s := by
        cases c with
        | check now => exact checkAutoCrossfadeTrigger_inflight h now
        | start f t now => exact startAutoCrossfade_inflight h f t now
      rw [hc]
      exact ih
  exact ⟨key, by rw [key], by rw [key], by rw [key]⟩

/-- Witness for C3: a concrete in-flight state and a concrete call sequence. -/
theorem c3_witness :
    exStateCrossfading.isCrossfading = true ∧
    List.foldl applyXfCall exStateCrossfading
      [XfCall.check 7, XfCall.start DeckId.A DeckId.B 9] = exStateCrossfading :=
  ⟨rfl, (c3_no_double_trigger exStateCrossfading rfl _).1⟩

/-- C8: an `activateDeck` call on a deck with no track or an unprepared track
returns `false` with the store and the remote untouched; and when the remote
play call fails, it returns `false`, the final state is the original state
with only the target deck's `isLoading` reset to `false` (so neither deck
becomes active and the candidate stays inactive), enabling a manual retry. -/
theorem c8_activation_failure :
    (∀ (s : AudioState) (d : DeckId) (pp playOk : Bool) (now : ℚ),
      activationBlocked d s = true → activateDeck d pp playOk now s = (false, s, [])) ∧
    (∀ (s : AudioState) (d : DeckId) (pp : Bool) (now : ℚ) (t : Track),
      (getDeck s d).track = some t → t.isPrepared = true →
      (activateDeck d pp false now s).1 = false ∧
      (activateDeck d pp false now s).2.1 = setDeckLoading d false s ∧
      (getDeck (activateDeck d pp false now s).2.1 d).isLoading = false ∧
      getDeck (activateDeck d pp false now s).2.1 d.other = getDeck s d.other) := by
  constructor
  · intro s d pp playOk now hb
    unfold activationBlocked at hb
    unfold activateDeck
    split
    · rfl
    · next tr heq =>
      rw [heq] at hb
      simp only [Bool.not_eq_true'] at hb
      rw [hb]
      rfl
  · intro s d pp now t htr hprep
    unfold activateDeck
    rw [htr]
    dsimp only
    rw [if_pos hprep]
    have hcollapse : activateFinish d (resolveStartPosition (getDeck s d) t pp) false now
        (setDeckLoading d true s) = setDeckLoading d false s := by
      show setDeckLoading d false (setDeckLoading d true s) = setDeckLoading d false s
      cases d <;> rfl
    refine ⟨rfl, hcollapse, ?_, ?_⟩
    · show (getDeck (activateFinish d (resolveStartPosition (getDeck s d) t pp) false now
        (setDeckLoading d true s)) d).isLoading = false
      rw [hcollapse]
      cases d <;> rfl
    · show getDeck (activateFinish d (resolveStartPosition (getDeck s d) t pp) false now
        (setDeckLoading d true s)) d.other = getDeck s d.other
      rw [hcollapse]
      cases d <;> rfl

/-- Witness for C8: a blocked activation at the initial (empty) state, and a
failed remote play on a prepared deck in a concrete state. -/
theorem c8_witness :
    activateDeck DeckId.A false true 0 initialState = (false, initialState, []) ∧
    (activateDeck DeckId.A false false 3 exState166).1 = false ∧
    (activateDeck DeckId.A false false 3 exState166).2.1 =
      setDeckLoading DeckId.A false exState166 :=
  ⟨c8_activation_failure.1 initialState DeckId.A false true 0 (by decide),
    (c8_activation_failure.2 exState166 DeckId.A false 3 exTrackA (by decide) (by decide)).1,
    (c8_activation_failure.2 exState166 DeckId.A false 3 exTrackA (by decide) (by decide)).2.1⟩

/-- C10: a successful `loadSpotifyTrack` always leaves the deck with a track
that has `isPrepared = true` and `preparedStartTime = startTimeMs`, so a
just-loaded deck satisfies activation's preparation gate; and on every
reachable store state the gate `activationBlocked` rejects a deck exactly when
it has no track at all. -/
theorem c10_load_prepares :
    (∀ (s : AudioState) (d : DeckId) (input : SpotifyTrackInput) (startTimeMs now : ℚ),
      (getDeck (loadSpotifyTrack d input startTimeMs now s) d).track =
        some (mkSpotifyTrack input startTimeMs now) ∧
      (mkSpotifyTrack input startTimeMs now).isPrepared = true ∧
      (mkSpotifyTrack input startTimeMs now).preparedStartTime = startTimeMs) ∧
    (∀ s : AudioState, Reachable s → ∀ d : DeckId,
      (activationBlocked d s = true ↔ (getDeck s d).track = none)) := by
  constructor
  · intro s d input startTimeMs now
    refine ⟨?_, rfl, rfl⟩
    cases d <;> rfl
  · intro s hr d
    have hInv := reachable_inv hr
    constructor
    · intro hb
      cases htr : (getDeck s d).track with
      | none => rfl
      | some t =>
        unfold activationBlocked at hb
        rw [htr] at hb
        simp only [Bool.not_eq_true'] at hb
        have hprep : t.isPrepared = true := by
          cases d with
          | A => exact hInv.2.1 t htr
          | B => exact hInv.2.2 t htr
        rw [hprep] at hb
        exact Bool.noConfusion hb
    · intro htr
      unfold activationBlocked
      rw [htr]

/-- Witness for C10: a concrete load at cue 30000 ms, and the gate at the
(reachable) initial state. -/
theorem c10_witness :
    (getDeck (loadSpotifyTrack DeckId.B exInputA 30000 0 initialState) DeckId.B).track =
      some (mkSpotifyTrack exInputA 30000 0) ∧
    (activationBlocked DeckId.A initialState = true ↔
      (getDeck initialState DeckId.A).track = none) :=
  ⟨(c10_load_prepares.1 initialState DeckId.B exInputA 30000 0).1,
    c10_load_prepares.2 initialState Reachable.init DeckId.A⟩

/-- C9: the crossfade curve function clamps its progress argument to `[0, 1]`
and then returns the clamped progress for `linear`, `p²(3 − 2p)` for `smooth`,
and `p^1.5` for `power`; consequently every curve maps 0 to 0 and 1 to 1. -/
theorem c9_curve :
    (∀ (p : ℝ) (k : Curve), getCrossfadeValue p k = getCrossfadeValue (max 0 (min 1 p)) k) ∧
    (∀ p : ℝ, getCrossfadeValue p Curve.linear = max 0 (min 1 p)) ∧
    (∀ p : ℝ, getCrossfadeValue p Curve.smooth =
      max 0 (min 1 p) * max 0 (min 1 p) * (3 - 2 * max 0 (min 1 p))) ∧
    (∀ p : ℝ, getCrossfadeValue p Curve.power = Real.rpow (max 0 (min 1 p)) (3 / 2)) ∧
    (∀ k : Curve, getCrossfadeValue 0 k = 0 ∧ getCrossfadeValue 1 k = 1) := by
  have hclamp : ∀ x : ℝ, max 0 (min 1 (max 0 (min 1 x))) = max 0 (min 1 x) := by
    intro x
    have h1 : max 0 (min 1 x) ≤ 1 := max_le (by norm_num) (min_le_left _ _)
    have h0 : (0 : ℝ) ≤ max 0 (min 1 x) := le_max_left _ _
    rw [min_eq_right h1, max_eq_right h0]
  have h0c : max 0 (min 1 (0 : ℝ)) = 0 := by norm_num
  have h1c : max 0 (min 1 (1 : ℝ)) = 1 := by norm_num
  refine ⟨?_, fun p => rfl, fun p => rfl, fun p => rfl, ?_⟩
  · intro p k
    cases k <;> simp only [getCrossfadeValue, hclamp]
  · intro k
    cases k with
    | linear => exact ⟨by simp only [getCrossfadeValue, h0c], by simp only [getCrossfadeValue, h1c]⟩
    | smooth =>
      constructor
      · show max 0 (min 1 (0 : ℝ)) * max 0 (min 1 (0 : ℝ)) * (3 - 2 * max 0 (min 1 (0 : ℝ))) = 0
        rw [h0c]
        ring
      · show max 0 (min 1 (1 : ℝ)) * max 0 (min 1 (1 : ℝ)) * (3 - 2 * max 0 (min 1 (1 : ℝ))) = 1
        rw [h1c]
        ring
    | power =>
      constructor
      · show Real.rpow (max 0 (min 1 (0 : ℝ))) (3 / 2) = 0
        rw [h0c]
        exact Real.zero_rpow (by norm_num)
      · show Real.rpow (max 0 (min 1 (1 : ℝ))) (3 / 2) = 1
        rw [h1c]
        exact Real.one_rpow _

theorem bool_false_of_not {b : Bool} (h : (!b) = true) : b = false := by
  cases b
  · rfl
  · exact Bool.noConfusion h

theorem bool_true_of_not_not {b : Bool} (h : ¬((!b) = true)) : b = true := by
  cases b
  · exact absurd rfl h
  · rfl

theorem triggerSide_of_guards {active candidate : DeckState} {lead : ℚ} {ta tb : Track}
    (hA : active.isActive = true) (hB : candidate.isActive = false)
    (hta : active.track = some ta) (htb : candidate.track = some tb)
    (hprep : tb.isPrepared = true)
    (hle : ta.duration - active.currentTime ≤ lead)
    (hgt : ta.duration - active.currentTime > 0) :
    triggerSide active candidate lead = true := by
  unfold triggerSide
  rw [hta, htb]
  simp only [hA, hB, hprep, Bool.not_false, Bool.true_and, Bool.and_eq_true, decide_eq_true_eq]
  exact ⟨hgt, hle⟩

theorem trigger_started_of_conditions {s : AudioState} (now : ℚ)
    (hcond : triggerConditions s = true) :
    (checkAutoCrossfadeTrigger now s).isCrossfading = true ∧ s.isCrossfading = false := by
  unfold triggerConditions at hcond
  simp only [Bool.and_eq_true, Bool.or_eq_true] at hcond
  obtain ⟨⟨hE, hXb⟩, hside⟩ := hcond
  have hX : s.isCrossfading = false := bool_false_of_not hXb
  refine ⟨?_, hX⟩
  unfold checkAutoCrossfadeTrigger
  rw [if_neg (show ¬((!s.autoCrossfade.enabled || s.isCrossfading) = true) by
    rw [hE, hX]; exact fun hc => Bool.noConfusion hc)]
  cases hside with
  | inl hsideA =>
    unfold triggerSide at hsideA
    simp only [Bool.and_eq_true] at hsideA
    obtain ⟨⟨hA, hBn⟩, hmatch⟩ := hsideA
    rw [if_pos hA]
    cases hta : s.deckA.track with
    | none => rw [hta] at hmatch; exact Bool.noConfusion hmatch
    | some ta =>
      cases htb : s.deckB.track with
      | none => rw [hta, htb] at hmatch; exact Bool.noConfusion hmatch
      | some tb =>
        rw [hta, htb] at hmatch
        simp only [Bool.and_eq_true, decide_eq_true_eq] at hmatch
        obtain ⟨⟨hprep, hgt⟩, hle⟩ := hmatch
        unfold checkTriggerGo
        rw [show (getDeck s DeckId.A).track = s.deckA.track from rfl,
          show (getDeck s DeckId.B).track = s.deckB.track from rfl, hta, htb]
        dsimp only
        rw [if_neg (show ¬((!tb.isPrepared) = true) by
          rw [hprep]; exact fun hc => Bool.noConfusion hc)]
        rw [if_pos ⟨hle, hgt⟩]
        unfold startAutoCrossfade
        rw [show (getDeck s DeckId.A).track = s.deckA.track from rfl,
          show (getDeck s DeckId.B).track = s.deckB.track from rfl, hta, htb]
        dsimp only
        rw [if_neg (show ¬((!tb.isPrepared) = true) by
          rw [hprep]; exact fun hc => Bool.noConfusion hc)]
        rw [if_neg (show ¬(s.isCrossfading = true) by
          rw [hX]; exact fun hc => Bool.noConfusion hc)]
  | inr hsideB =>
    unfold triggerSide at hsideB
    simp only [Bool.and_eq_true] at hsideB
    obtain ⟨⟨hBact, hAn⟩, hmatch⟩ := hsideB
    have hA : s.deckA.isActive = false := bool_false_of_not hAn
    rw [if_neg (show ¬(s.deckA.isActive = true) by
      rw [hA]; exact fun hc => Bool.noConfusion hc)]
    rw [if_pos hBact]
    cases htb : s.deckB.track with
    | none => rw [htb] at hmatch; exact Bool.noConfusion hmatch
    | some tb =>
      cases hta : s.deckA.track with
      | none => rw [htb, hta] at hmatch; exact Bool.noConfusion hmatch
      | some ta =>
        rw [htb, hta] at hmatch
        simp only [Bool.and_eq_true, decide_eq_true_eq] at hmatch
        obtain ⟨⟨hprep, hgt⟩, hle⟩ := hmatch
        unfold checkTriggerGo
        rw [show (getDeck s DeckId.B).track = s.deckB.track from rfl,
          show (getDeck s DeckId.A).track = s.deckA.track from rfl, htb, hta]
        dsimp only
        rw [if_neg (show ¬((!ta.isPrepared) = true) by
          rw [hprep]; exact fun hc => Bool.noConfusion hc)]
        rw [if_pos ⟨hle, hgt⟩]
        unfold startAutoCrossfade
        rw [show (getDeck s DeckId.B).track = s.deckB.track from rfl,
          show (getDeck s DeckId.A).track = s.deckA.track from rfl, htb, hta]
        dsimp only
        rw [if_neg (show ¬((!ta.isPrepared) = true) by
          rw [hprep]; exact fun hc => Bool.noConfusion hc)]
        rw [if_neg (show ¬(s.isCrossfading = true) by
          rw [hX]; exact fun hc => Bool.noConfusion hc)]

theorem trigger_conditions_of_started {s : AudioState} (now : ℚ)
    (h : ¬(s.deckA.isActive = true ∧ s.deckB.isActive = true))
    (hres : (checkAutoCrossfadeTrigger now s).isCrossfading = true)
    (hX : s.isCrossfading = false) : triggerConditions s = true := by
  unfold checkAutoCrossfadeTrigger at hres
  split at hres
  · rw [hX] at hres
    exact Bool.noConfusion hres
  · next hcond =>
    have hE : s.autoCrossfade.enabled = true := by
      cases hEv : s.autoCrossfade.enabled
      · exact absurd (show (!s.autoCrossfade.enabled || s.isCrossfading) = true by
          rw [hEv]; rfl) hcond
      · rfl
    split at hres
    · next hA =>
      have hB : s.deckB.isActive = false := by
        cases hBv : s.deckB.isActive with
        | false => rfl
        | true => exact absurd ⟨hA, hBv⟩ h
      unfold checkTriggerGo at hres
      split at hres
      · next ta tb hta htb =>
        split at hres
        · rw [hX] at hres
          exact Bool.noConfusion hres
        · next hprepn =>
          have hprep : tb.isPrepared = true := bool_true_of_not_not hprepn
          dsimp only at hres
          split at hres
          · next hc =>
            unfold triggerConditions
            rw [hE, hX]
            simp only [Bool.not_false, Bool.true_and, Bool.or_eq_true]
            exact Or.inl (triggerSide_of_guards hA hB hta htb hprep hc.1 hc.2)
          · rw [hX] at hres
            exact Bool.noConfusion hres
      · rw [hX] at hres
        exact Bool.noConfusion hres
    · next hnA =>
      have hA : s.deckA.isActive = false := by
        cases hAv : s.deckA.isActive with
        | false => rfl
        | true => exact absurd hAv hnA
      split at hres
      · next hBact =>
        unfold checkTriggerGo at hres
        split at hres
        · next tb ta htb hta =>
          split at hres
          · rw [hX] at hres
            exact Bool.noConfusion hres
          · next hprepn =>
            have hprep : ta.isPrepared = true := bool_true_of_not_not hprepn
            dsimp only at hres
            split at hres
            · next hc =>
              unfold triggerConditions
              rw [hE, hX]
              simp only [Bool.not_false, Bool.true_and, Bool.or_eq_true]
              exact Or.inr (triggerSide_of_guards hBact hA htb hta hprep hc.1 hc.2)
            · rw [hX] at hres
              exact Bool.noConfusion hres
        · rw [hX] at hres
          exact Bool.noConfusion hres
      · rw [hX] at hres
        exact Bool.noConfusion hres

/-- C2: the trigger check starts a transition exactly when auto-crossfade is
enabled, no transition is in flight, exactly one deck is active with a track,
the candidate deck has a prepared track, and the remaining time of the active
track satisfies `0 < remaining ≤ triggerTime` (stated for states satisfying
the at-most-one-active invariant of C1); in particular, duration 180 s at
currentTime 166 s with triggerTime 15 triggers, and at 160 s it does not. -/
theorem c2_trigger_iff :
    (∀ (s : AudioState) (now : ℚ),
      ¬(s.deckA.isActive = true ∧ s.deckB.isActive = true) →
      (((checkAutoCrossfadeTrigger now s).isCrossfading = true ∧ s.isCrossfading = false) ↔
        triggerConditions s = true)) ∧
    (checkAutoCrossfadeTrigger 0 exState166).isCrossfading = true ∧
    checkAutoCrossfadeTrigger 0 exState160 = exState160 := by
  refine ⟨fun s now h => ⟨fun hres => trigger_conditions_of_started now h hres.1 hres.2,
    fun hcond => trigger_started_of_conditions now hcond⟩, ?_, ?_⟩
  · refine (trigger_started_of_conditions 0 ?_).1
    have hs : triggerSide exState166.deckA exState166.deckB
        exState166.autoCrossfade.triggerTime = true := by
      refine triggerSide_of_guards rfl rfl
        (show exState166.deckA.track = some exTrackA from rfl)
        (show exState166.deckB.track = some exTrackB from rfl) rfl ?_ ?_
      · show exTrackA.duration - exState166.deckA.currentTime ≤
          exState166.autoCrossfade.triggerTime
        norm_num [exTrackA, exState166, defaultAutoCrossfade]
      · show exTrackA.duration - exState166.deckA.currentTime > 0
        norm_num [exTrackA, exState166]
    unfold triggerConditions
    rw [hs]
    rfl
  · unfold checkAutoCrossfadeTrigger
    rw [if_neg (by decide)]
    rw [if_pos (show exState160.deckA.isActive = true by decide)]
    unfold checkTriggerGo
    rw [show (getDeck exState160 DeckId.A).track = some exTrackA from rfl,
      show (getDeck exState160 DeckId.B).track = some exTrackB from rfl]
    dsimp only
    rw [if_neg (by decide)]
    rw [if_neg (show ¬(exTrackA.duration - (getDeck exState160 DeckId.A).currentTime ≤
        exState160.autoCrossfade.triggerTime ∧
        exTrackA.duration - (getDeck exState160 DeckId.A).currentTime > 0) by
      intro hc
      have : (180 : ℚ) - 160 ≤ 15 := hc.1
      norm_num at this)]

/-- Witness for C2: the iff instantiated at the concrete 166-second state. -/
theorem c2_witness :
    ¬(exState166.deckA.isActive = true ∧ exState166.deckB.isActive = true) ∧
    (((checkAutoCrossfadeTrigger 7 exState166).isCrossfading = true ∧
        exState166.isCrossfading = false) ↔
      triggerConditions exState166 = true) :=
  ⟨by decide, c2_trigger_iff.1 exState166 7 (by decide)⟩

theorem handoff_guard {cfg : AnimCfg} {ha : Bool} {elapsed : ℚ}
    (h : handoffCondition cfg ha elapsed = true) :
    ha = false ∧ elapsed ≥ cfg.autoCfg.duration * cfg.autoCfg.switchTiming * 1000 := by
  unfold handoffCondition at h
  simp only [Bool.and_eq_true, decide_eq_true_eq] at h
  exact ⟨bool_false_of_not h.1.1.1, h.1.1.2⟩

theorem animStep_log {cfg : AnimCfg} {st : AnimState} (ev : AnimEvent)
    (h1 : st.hasActivated = false → st.activations = [])
    (h2 : st.activations.length ≤ 1)
    (h3 : ∀ p ∈ st.activations,
      p.1 ≥ cfg.autoCfg.duration * cfg.autoCfg.switchTiming * 1000 ∧ p.2 = false) :
    ((animStep cfg st ev).hasActivated = false → (animStep cfg st ev).activations = []) ∧
    (animStep cfg st ev).activations.length ≤ 1 ∧
    (∀ p ∈ (animStep cfg st ev).activations,
      p.1 ≥ cfg.autoCfg.duration * cfg.autoCfg.switchTiming * 1000 ∧ p.2 = false) := by
  cases ev with
  | stop => exact ⟨h1, h2, h3⟩
  | frame now fade playOk =>
    unfold animStep
    dsimp only
    split
    · exact ⟨h1, h2, h3⟩
    · by_cases hda : handoffCondition cfg st.hasActivated (now - cfg.startTime) = true
      · have hguard := handoff_guard hda
        have hempty := h1 hguard.1
        have hact : (st.hasActivated ||
            handoffCondition cfg st.hasActivated (now - cfg.startTime)) = true := by
          rw [hda, Bool.or_true]
        have hlist : st.activations ++
            (if handoffCondition cfg st.hasActivated (now - cfg.startTime) = true
              then [(now - cfg.startTime, false)] else []) = [(now - cfg.startTime, false)] := by
          rw [if_pos hda, hempty, List.nil_append]
        refine ⟨fun hn => Bool.noConfusion (hact.symm.trans hn), ?_, ?_⟩
        · show (st.activations ++ _).length ≤ 1
          rw [hlist]
          exact Nat.le_refl 1
        · show ∀ p ∈ st.activations ++ _, _
          rw [hlist]
          intro p hp
          rw [List.mem_singleton] at hp
          rw [hp]
          exact ⟨hguard.2, rfl⟩
      · have hdaf : handoffCondition cfg st.hasActivated (now - cfg.startTime) = false :=
          Bool.eq_false_iff.mpr hda
        have hact : (st.hasActivated ||
            handoffCondition cfg st.hasActivated (now - cfg.startTime)) = st.hasActivated := by
          rw [hdaf, Bool.or_false]
        have hlist : st.activations ++
            (if handoffCondition cfg st.hasActivated (now - cfg.startTime) = true
              then [(now - cfg.startTime, false)] else []) = st.activations := by
          rw [if_neg hda, List.append_nil]
        refine ⟨fun hn => ?_, ?_, ?_⟩
        · have hn' : (st.hasActivated ||
              handoffCondition cfg st.hasActivated (now - cfg.startTime)) = false := hn
          rw [hact] at hn'
          show st.activations ++ _ = []
          rw [hlist]
          exact h1 hn'
        · show (st.activations ++ _).length ≤ 1
          rw [hlist]
          exact h2
        · show ∀ p ∈ st.activations ++ _, _
          rw [hlist]
          exact h3

theorem animRun_log (cfg : AnimCfg) (events : List AnimEvent) :
    ∀ st : AnimState,
      (st.hasActivated = false → st.activations = []) →
      st.activations.length ≤ 1 →
      (∀ p ∈ st.activations,
        p.1 ≥ cfg.autoCfg.duration * cfg.autoCfg.switchTiming * 1000 ∧ p.2 = false) →
      ((animRun cfg events st).hasActivated = false → (animRun cfg events st).activations = []) ∧
      (animRun cfg events st).activations.length ≤ 1 ∧
      (∀ p ∈ (animRun cfg events st).activations,
        p.1 ≥ cfg.autoCfg.duration * cfg.autoCfg.switchTiming * 1000 ∧ p.2 = false) := by
  induction events with
  | nil => exact fun st h1 h2 h3 => ⟨h1, h2, h3⟩
  | cons ev evs ih =>
    intro st h1 h2 h3
    have hstep := animStep_log ev h1 h2 h3
    exact ih _ hstep.1 hstep.2.1 hstep.2.2

/-- C4: during one transition with `autoActivateNext` enabled and the target
deck inactive at transition start, the animation loop invokes the candidate
deck's activation at most once, only at a frame whose elapsed time is at least
`switchTiming * duration * 1000` milliseconds, and always with
`preservePosition = false` (the cue point, not a resumed position). -/
theorem c4_handoff_once (cfg : AnimCfg) (s : AudioState) (events : List AnimEvent)
    (hAuto : cfg.autoCfg.autoActivateNext = true) (hTarget : cfg.targetWasActive = false) :
    (animRun cfg events (animInit s)).activations.length ≤ 1 ∧
    ∀ p ∈ (animRun cfg events (animInit s)).activations,
      p.1 ≥ cfg.autoCfg.switchTiming * cfg.autoCfg.duration * 1000 ∧ p.2 = false := by
  have h := animRun_log cfg events (animInit s) (fun _ => rfl) (by simp [animInit])
    (by simp [animInit])
  refine ⟨h.2.1, fun p hp => ?_⟩
  have hq := h.2.2 p hp
  refine ⟨?_, hq.2⟩
  rw [mul_comm cfg.autoCfg.switchTiming cfg.autoCfg.duration]
  exact hq.1

/-- Witness for C4: the default 8-second, 75% configuration with a concrete
frame sequence crossing the 6000 ms handoff point. -/
theorem c4_witness :
    exAnimCfg.autoCfg.autoActivateNext = true ∧
    (animRun exAnimCfg exStaleEvents (animInit exStateCrossfading)).activations.length ≤ 1 ∧
    (∀ p ∈ (animRun exAnimCfg exStaleEvents (animInit exStateCrossfading)).activations,
      p.1 ≥ exAnimCfg.autoCfg.switchTiming * exAnimCfg.autoCfg.duration * 1000 ∧
        p.2 = false) :=
  ⟨rfl, (c4_handoff_once exAnimCfg exStateCrossfading exStaleEvents rfl rfl).1,
    (c4_handoff_once exAnimCfg exStateCrossfading exStaleEvents rfl rfl).2⟩


/-- C5 (code-bug demonstration): `stopAutoCrossfade` does clear
`isCrossfading`, `crossfadeStartTime` and `crossfadeDirection`, but it does
not cancel the running `animateCrossfade` loop, whose body never re-checks
`isCrossfading`.  Concretely, for a default A-to-B transition started at time
0 (handoff point 6000 ms): after a frame at 1000 ms and an external
`stopAutoCrossfade`, no handoff has fired and `isCrossfading` is `false`; yet
a later frame of the same still-running loop at 6100 ms fires the stale
handoff — `activateDeck` is invoked (logged at elapsed 6100 ms) and deck B
becomes active after the transition was stopped. -/
theorem c5_stale_handoff_fires :
    stopAutoCrossfade exStateCrossfading =
      { exStateCrossfading with
        isCrossfading := false, crossfadeStartTime := 0, crossfadeDirection := none } ∧
    (animRun exAnimCfg exStopEvents (animInit exStateCrossfading)).store.isCrossfading =
      false ∧
    (animRun exAnimCfg exStopEvents (animInit exStateCrossfading)).activations = [] ∧
    (animRun exAnimCfg exStopEvents (animInit exStateCrossfading)).store.deckB.isActive =
      false ∧
    (animRun exAnimCfg exStaleEvents (animInit exStateCrossfading)).activations =
      [(6100, false)] ∧
    (animRun exAnimCfg exStaleEvents (animInit exStateCrossfading)).store.deckB.isActive =
      true := by
  refine ⟨rfl, ?_, ?_, ?_, ?_, ?_⟩ <;>
    norm_num [animRun, exStopEvents, exStaleEvents, animStep, animInit, exAnimCfg,
      defaultAutoCrossfade, handoffCondition, setCrossfader, stopAutoCrossfade,
      exStateCrossfading, exState166, min_def, crossfaderPush, exTrackA, exTrackB,
      activateDeck, activateFinish, setDeckLoading, updateDeck, getDeck,
      resolveStartPosition, DeckId.other, List.foldl]

/-- C6: a successful activation of one deck snapshots the other (previously
active) deck's `currentTime` into its `lastPlayedPosition`; and activating a
deck with `preservePosition = true` and `lastPlayedPosition > 0` issues the
remote play call at `round(lastPlayedPosition * 1000)` milliseconds rather
than the prepared cue point — concretely, deactivating deck A at 42.3 s stores
42.3, and reactivating it with `preservePosition = true` plays at 42300 ms. -/
theorem c6_resume_semantics :
    (∀ (s : AudioState) (d : DeckId) (pp : Bool) (now : ℚ) (t : Track),
      (getDeck s d).isActive = true →
      (getDeck s d.other).track = some t → t.isPrepared = true →
      (getDeck (activateDeck d.other pp true now s).2.1 d).lastPlayedPosition =
        (getDeck s d).currentTime) ∧
    (∀ (s : AudioState) (d : DeckId) (playOk : Bool) (now : ℚ) (t : Track),
      (getDeck s d).track = some t → t.isPrepared = true →
      (getDeck s d).lastPlayedPosition > 0 →
      (activateDeck d true playOk now s).2.2 =
        [RemoteCall.play t.spotifyUri
          ((round ((getDeck s d).lastPlayedPosition * 1000) : ℤ) : ℚ)]) ∧
    (getDeck (activateDeck DeckId.B false true 0 exResumeState).2.1
      DeckId.A).lastPlayedPosition = 423 / 10 ∧
    (activateDeck DeckId.A true true 0 exResumeState2).2.2 =
      [RemoteCall.play "spotify-track-a" 42300] := by
  refine ⟨?_, ?_, ?_, ?_⟩
  · intro s d pp now t hact htr hprep
    unfold activateDeck
    rw [htr]
    dsimp only
    rw [if_pos hprep]
    cases d with
    | A => exact if_pos hact
    | B => exact if_pos hact
  · intro s d playOk now t htr hprep hlpp
    unfold activateDeck
    rw [htr]
    dsimp only
    rw [if_pos hprep]
    unfold resolveStartPosition
    dsimp only
    rw [if_pos hlpp]
    rw [if_pos rfl]
  · norm_num [activateDeck, activateFinish, setDeckLoading, updateDeck, getDeck,
      resolveStartPosition, DeckId.other, exResumeState, exState166, exTrackA, exTrackB,
      defaultAutoCrossfade]
  · norm_num [exResumeState2, activateDeck, activateFinish, setDeckLoading, updateDeck,
      getDeck, resolveStartPosition, DeckId.other, exResumeState, exState166, exTrackA,
      exTrackB, defaultAutoCrossfade, round_eq]

/-- Witness for C6: the snapshot rule at the 166-second state, and the resume
rule at a deck with saved position 57 s. -/
theorem c6_witness :
    (getDeck (activateDeck DeckId.A.other false true 0 exState166).2.1
        DeckId.A).lastPlayedPosition = (getDeck exState166 DeckId.A).currentTime ∧
    (activateDeck DeckId.A true true 0 exResumeLit).2.2 =
      [RemoteCall.play exTrackA.spotifyUri
        ((round ((getDeck exResumeLit DeckId.A).lastPlayedPosition * 1000) : ℤ) : ℚ)] :=
  ⟨c6_resume_semantics.1 exState166 DeckId.A false 0 exTrackB rfl rfl rfl,
    c6_resume_semantics.2.1 exResumeLit DeckId.A true 0 exTrackA rfl rfl (by decide)⟩

theorem reachable_exPausedActive : Reachable exPausedActive :=
  Reachable.step
    (Reachable.step
      (Reachable.step Reachable.init (Step.load initialState DeckId.A exInputA 0 0))
      (Step.finishActivate _ DeckId.A 0 true 0))
    (Step.togglePlay _ DeckId.A false)

theorem reachable_exStaleResume : Reachable exStaleResume :=
  Reachable.step
    (Reachable.step
      (Reachable.step reachable_exPausedActive (Step.load exPausedActive DeckId.B exInputA 0 0))
      (Step.finishActivate _ DeckId.B 0 true 0))
    (Step.togglePlay _ DeckId.A true)

/-- Counterexample for C7: the claim that a per-deck volume change pushes the
remote volume only for a deck that is both `isActive` and `isPlaying` is false
on the code: in the reachable state `exPausedActive` (deck A activated and
then paused), `setVolume` still pushes the effective gain to the remote
player although the deck is not playing — the guard checks only
`track && isActive`. -/
theorem c7_counterexample :
    ¬(∀ (s : AudioState) (d : DeckId) (v : ℚ), Reachable s →
      (setVolume d v s).2 ≠ [] →
      ((getDeck s d).isActive = true ∧ (getDeck s d).isPlaying = true)) := by
  intro hclaim
  have h := hclaim exPausedActive DeckId.A (9 / 10) reachable_exPausedActive (by decide)
  exact absurd h.2 (by decide)

/-- C7 (amended): each entry point pushes the remote volume exactly according
to its own guard — `setVolume` pushes the effective gain iff the deck holds a
track and is `isActive` (regardless of `isPlaying`), while `setCrossfader`'s
trace is the concatenation of per-deck pushes, and a deck's push fires iff it
holds a track and is `isPlaying` (regardless of `isActive`).  Neither push
requires both flags, and an inactive deck's volume can reach the remote
binding: in the program-reachable stale-resume state `exStaleResume` — a
`playPause` resume whose awaited remote call raced a concurrent activation of
the other deck — deck A is playing but not active, and the crossfader's
deck-A push still fires. -/
theorem c7_amended :
    (∀ (s : AudioState) (d : DeckId) (v : ℚ),
      (setVolume d v s).2 ≠ [] ↔
        ((getDeck s d).track.isSome = true ∧ (getDeck s d).isActive = true)) ∧
    (∀ (s : AudioState) (p : ℚ),
      (setCrossfader p s).2 =
        crossfaderPush s.deckA (1 - max 0 (min 1 p)) ++
          crossfaderPush s.deckB (max 0 (min 1 p))) ∧
    (∀ (dk : DeckState) (mix : ℚ),
      crossfaderPush dk mix ≠ [] ↔ (dk.track.isSome = true ∧ dk.isPlaying = true)) ∧
    (Reachable exStaleResume ∧
      exStaleResume.deckA.isPlaying = true ∧
      exStaleResume.deckA.isActive = false ∧
      ∀ mix : ℚ, crossfaderPush exStaleResume.deckA mix ≠ []) := by
  refine ⟨?_, fun s p => rfl, ?_, reachable_exStaleResume, by decide, by decide,
    fun mix h => List.noConfusion h⟩
  · intro s d v
    unfold setVolume
    dsimp only
    cases htr : (getDeck s d).track with
    | none => simp
    | some tr =>
      dsimp only
      cases hact : (getDeck s d).isActive with
      | false => simp
      | true => simp
  · intro dk mix
    unfold crossfaderPush
    cases htr : dk.track with
    | none => simp
    | some tr =>
      dsimp only
      cases hpl : dk.isPlaying with
      | false => simp
      | true => simp

end SpotifyMixer
